import Mathlib

/-!
Verification development for the sales-plan email delivery pipeline.

The definitions below are a shallow embedding of the Python sources:
  - `src/database/models/email_templates.py` (`EmailTemplate.render`)
  - `src/database/models/email_queue.py` (`EmailQueue`, `mark_sent`, `mark_failed`)
  - `src/database/models/email_campaigns.py` (`EmailCampaign`)
  - `src/email_service/campaign_manager.py` (`CampaignManager`)
  - `src/email_service/queue_processor.py` (`QueueProcessor`)
  - `src/email_service/providers.py` (`SMTPProvider`, `SendGridProvider`, `AWSProvider`)

Conventions of the embedding:
  - SQLAlchemy rows become structures; nullable columns become `Option`.
  - `datetime` values become `Nat` (seconds); `timedelta(days=d)` is `d * 86400`.
  - Python truthiness on strings (`if s:`, `a or b`) is modelled explicitly:
    `none` and `some ""` are falsy.
  - The ORM session becomes an explicit `DB` value threaded through the
    operations; `session.add` appends and `session.query(...)` filters.
    Sessions are created with `autoflush=False` (`session.py`, line 18) and
    the campaign manager only commits at the end of a call, so a query made
    during a call sees only rows committed before the call, not the rows
    `session.add`ed earlier in the same call; the model therefore runs the
    in-call duplicate checks against the pre-call queue while accumulating
    the new rows separately.
  - Python exceptions that can cross a function boundary become
    `Except String`; functions that cannot raise return plain values.
  - Python's `str.replace` (replace every non-overlapping occurrence,
    left to right) is modelled by `pyReplace` below.
-/

namespace SalesPlan

/-- Python string truthiness for an optional string: `None` and `""` are falsy. -/
def strTruthy : Option String → Bool
  | some s => s ≠ ""
  | none => false

/-- Python `a or b` for an optional string `a` and a string default `b`. -/
def pyOrS (a : Option String) (b : String) : String :=
  match a with
  | some s => if s = "" then b else s
  | none => b

/-- Python `a or b` over two optional strings (used for credential fallback). -/
def pyOrOpt (a b : Option String) : Option String :=
  if strTruthy a then a else b

/-- One step of Python's `str.replace` on character lists, fuelled by the
length of the subject string.  When the pattern is a prefix, the replacement
is emitted and the matched characters are skipped; otherwise one character
is copied.  The fuel is an upper bound on the number of steps; starting it at
the length of the string makes the function total and exact for non-empty
patterns. -/
def replaceAux : Nat → List Char → List Char → List Char → List Char
  | 0, _, _, s => s
  | _ + 1, _, _, [] => []
  | fuel + 1, patt, repl, c :: rest =>
    if patt.isPrefixOf (c :: rest) then
      repl ++ replaceAux fuel patt repl ((c :: rest).drop patt.length)
    else
      c :: replaceAux fuel patt repl rest

/-- Replacement of every non-overlapping occurrence on character lists: the
fuel of `replaceAux` is pinned to the subject's length, which suffices for a
non-empty pattern (each step consumes at least one character). -/
def replaceAllL (patt repl s : List Char) : List Char :=
  replaceAux s.length patt repl s

/-- Model of Python's `s.replace(pattern, repl)` for a non-empty pattern:
replaces every non-overlapping occurrence, scanning left to right.
(The pipeline only ever calls it with patterns of the shape `\x7b\x7bkey\x7d\x7d`,
which are never empty; for an empty pattern the model returns `s` unchanged.) -/
def pyReplace (s pattern repl : String) : String :=
  if pattern.isEmpty then s
  else ⟨replaceAllL pattern.data repl.data s.data⟩

/-- Whether the pattern occurs (as a contiguous sublist) anywhere in `s`;
an independent characterization used to state that strings without an
occurrence are left verbatim. -/
def occursL (p : List Char) : List Char → Bool
  | [] => false
  | c :: cs => p.isPrefixOf (c :: cs) || occursL p cs

/-! ## `src/database/models/email_templates.py` -/

/-- Embedding of the `EmailTemplate` row (`email_templates.py`).
Only the columns read by the core pipeline are carried. -/
structure EmailTemplate where
  id : Nat
  template_type : String := "initial"
  subject : String
  body_html : Option String := none
  body_text : String
  deriving Repr, DecidableEq

/-- Variable mappings are association lists in insertion order, matching the
iteration order of a Python `dict`. -/
abbrev VarMap := List (String × String)

/-- Embedding of `EmailTemplate.render` (`email_templates.py`, lines 49-71):
`body_html` falls back to `body_text` when falsy (before any substitution),
then for each `(key, value)` of the mapping, in order, every occurrence of
`\x7b\x7bkey\x7d\x7d` is replaced in the subject, the html body (guarded by
`if body_html:`) and the text body.  Returns `(subject, body_html, body_text)`. -/
def EmailTemplate.render (t : EmailTemplate) (vars : VarMap) :
    String × String × String :=
  let subject := t.subject
  let body_html := pyOrS t.body_html t.body_text
  let body_text := t.body_text
  vars.foldl
    (fun acc kv =>
      let placeholder := "\x7b\x7b" ++ kv.1 ++ "\x7d\x7d"
      (pyReplace acc.1 placeholder kv.2,
       if acc.2.1 = "" then acc.2.1 else pyReplace acc.2.1 placeholder kv.2,
       pyReplace acc.2.2 placeholder kv.2))
    (subject, body_html, body_text)

/-! ## Row structures (`src/database/models/`) -/

/-- Embedding of the `SalesLead` row (`sales_leads.py`); only the columns the
campaign manager reads. -/
structure SalesLead where
  id : Nat
  email : Option String := none
  first_name : Option String := none
  last_name : Option String := none
  full_name : Option String := none
  company_name : Option String := none
  industry : Option String := none
  city : Option String := none
  country : Option String := none
  source : Option String := none
  lead_status : Option String := none
  run_id : Option String := none
  created_at : Nat := 0
  is_deleted : Bool := false
  deriving Repr, DecidableEq

/-- Embedding of the campaign `target_filters` JSON object: a field is `some`
exactly when the corresponding key is present in the dict. -/
structure Filters where
  country : Option String := none
  source : Option String := none
  industry : Option String := none
  lead_status : Option String := none
  deriving Repr, DecidableEq

/-- Embedding of the `EmailCampaign` row (`email_campaigns.py`). -/
structure EmailCampaign where
  id : Nat
  name : String := ""
  status : String := "draft"
  template_id : Option Nat := none
  target_filters : Option Filters := none
  follow_up_enabled : Bool := false
  follow_up_delay_days : Nat := 3
  follow_up_template_id : Option Nat := none
  sender_name : Option String := none
  sender_email : Option String := none
  reply_to : Option String := none
  attachments : Option (List String) := none
  total_recipients : Nat := 0
  emails_sent : Nat := 0
  emails_delivered : Nat := 0
  emails_opened : Nat := 0
  emails_clicked : Nat := 0
  emails_failed : Nat := 0
  emails_bounced : Nat := 0
  emails_replied : Nat := 0
  send_rate_limit : Nat := 100
  is_deleted : Bool := false
  deriving Repr, DecidableEq

/-- Embedding of the `EmailQueue` row (`email_queue.py`). -/
structure EmailQueue where
  id : Nat
  campaign_id : Nat
  lead_id : Nat
  recipient_email : String
  recipient_name : Option String := none
  sender_email : Option String := none
  sender_name : Option String := none
  subject : String := ""
  body_html : Option String := none
  body_text : String := ""
  scheduled_at : Nat := 0
  sent_at : Option Nat := none
  status : String := "pending"
  email_type : String := "initial"
  parent_email_id : Option Nat := none
  retry_count : Nat := 0
  max_retries : Nat := 3
  last_error : Option String := none
  provider : Option String := none
  provider_message_id : Option String := none
  vars : Option VarMap := none
  attachments : Option (List String) := none
  is_deleted : Bool := false
  deriving Repr, DecidableEq

/-- Embedding of `EmailQueue.mark_sent` (`email_queue.py`, lines 73-78):
status becomes `sent`, `sent_at` is stamped, and `provider_message_id` is set
only when the argument is truthy. -/
def EmailQueue.mark_sent (e : EmailQueue) (now : Nat) (pmid : Option String) :
    EmailQueue :=
  let e := { e with status := "sent", sent_at := some now }
  if strTruthy pmid then { e with provider_message_id := pmid } else e

/-- Embedding of `EmailQueue.mark_failed` (`email_queue.py`, lines 80-84). -/
def EmailQueue.mark_failed (e : EmailQueue) (error : String) : EmailQueue :=
  { e with status := "failed", last_error := some error,
           retry_count := e.retry_count + 1 }

/-- Embedding of the append-only `EmailTracking` row (`email_tracking.py`);
only the columns written by the queue processor. -/
structure EmailTracking where
  campaign_id : Nat
  email_id : Nat
  lead_id : Nat
  event_type : String
  deriving Repr, DecidableEq

/-- The persistent store seen by the pipeline: the four tables the core
touches plus the autoincrement cursor for new queue rows. -/
structure DB where
  templates : List EmailTemplate := []
  campaigns : List EmailCampaign := []
  leads : List SalesLead := []
  queue : List EmailQueue := []
  tracking : List EmailTracking := []
  next_queue_id : Nat := 1
  deriving Repr, DecidableEq

/-- `session.query(EmailCampaign).get(cid)`: primary-key lookup. -/
def DB.findCampaign (db : DB) (cid : Nat) : Option EmailCampaign :=
  db.campaigns.find? (fun c => c.id == cid)

/-- `session.query(EmailTemplate).get(tid)`: primary-key lookup. -/
def DB.findTemplate (db : DB) (tid : Nat) : Option EmailTemplate :=
  db.templates.find? (fun t => t.id == tid)

/-- The `campaign.template` relationship: resolves the campaign's
`template_id` foreign key, `none` when the key is null or dangling. -/
def DB.templateOf (db : DB) (c : EmailCampaign) : Option EmailTemplate :=
  c.template_id.bind db.findTemplate

/-- In-place ORM mutation of one queue row, by primary key. -/
def DB.updateRow (db : DB) (rid : Nat) (f : EmailQueue → EmailQueue) : DB :=
  { db with queue := db.queue.map (fun r => if r.id == rid then f r else r) }

/-- In-place ORM mutation of one campaign row, by primary key. -/
def DB.updateCampaign (db : DB) (cid : Nat) (f : EmailCampaign → EmailCampaign) :
    DB :=
  { db with campaigns := db.campaigns.map (fun c => if c.id == cid then f c else c) }

/-! ## `src/email_service/campaign_manager.py` -/

/-- A stable insertion of `x` into a list: `x` is placed before the first
element `y` with `le x y`.  Used to model SQL `ORDER BY`. -/
def insertSorted (le : α → α → Bool) (x : α) : List α → List α
  | [] => [x]
  | y :: ys => if le x y then x :: y :: ys else y :: insertSorted le x ys

/-- Stable insertion sort, modelling SQL `ORDER BY` with comparator `le`. -/
def sortByKey (le : α → α → Bool) : List α → List α
  | [] => []
  | x :: xs => insertSorted le x (sortByKey le xs)

/-- Embedding of `CampaignManager.get_recent_leads` (`campaign_manager.py`,
lines 154-200): not soft-deleted, email column not NULL (`email.isnot(None)`
is an SQL NULL test, not truthiness), optional `run_id` restriction (guarded
by Python truthiness of the argument), equality filters for present keys,
ordered by `created_at` descending, limited. -/
def get_recent_leads (db : DB) (limit : Nat) (filters : Option Filters)
    (from_run_id : Option String) : List SalesLead :=
  let q := db.leads.filter (fun l => !l.is_deleted && l.email.isSome)
  let q := if strTruthy from_run_id then
      q.filter (fun l => l.run_id == from_run_id) else q
  let q := match filters with
    | none => q
    | some f =>
      let q := match f.country with
        | some v => q.filter (fun l => l.country == some v)
        | none => q
      let q := match f.source with
        | some v => q.filter (fun l => l.source == some v)
        | none => q
      let q := match f.industry with
        | some v => q.filter (fun l => l.industry == some v)
        | none => q
      match f.lead_status with
        | some v => q.filter (fun l => l.lead_status == some v)
        | none => q
  (sortByKey (fun a b => b.created_at ≤ a.created_at) q).take limit

/-- The fixed variable set built for each lead in `queue_campaign`
(`campaign_manager.py`, lines 277-287), with Python `or` truthiness chains. -/
def leadVariables (lead : SalesLead) (em : String) : VarMap :=
  [("first_name", pyOrS lead.first_name (pyOrS lead.full_name "there")),
   ("last_name", pyOrS lead.last_name ""),
   ("full_name", pyOrS lead.full_name ""),
   ("email", em),
   ("company_name", pyOrS lead.company_name ""),
   ("industry", pyOrS lead.industry ""),
   ("city", pyOrS lead.city ""),
   ("country", pyOrS lead.country "")]

/-- The duplicate-suppression query of `queue_campaign` (`campaign_manager.py`,
lines 264-271): any row for this (campaign, lead) whose status is `pending`
or `sent`. -/
def hasActiveRow (queue : List EmailQueue) (cid lid : Nat) : Bool :=
  (queue.find? (fun r =>
    r.campaign_id == cid && r.lead_id == lid &&
      (r.status == "pending" || r.status == "sent"))).isSome

/-- The queue row built and `session.add`ed for one lead by `queue_campaign`
(`campaign_manager.py`, lines 277-311). -/
def newQueueRow (cid : Nat) (template : EmailTemplate)
    (campaign : EmailCampaign) (sched : Nat) (nid : Nat)
    (lead : SalesLead) : EmailQueue :=
  let em := lead.email.getD ""
  let lv := leadVariables lead em
  let r := template.render lv
  { id := nid, campaign_id := cid, lead_id := lead.id,
    recipient_email := em, recipient_name := lead.full_name,
    sender_email := campaign.sender_email,
    sender_name := campaign.sender_name,
    subject := r.1, body_html := some r.2.1, body_text := r.2.2,
    scheduled_at := sched, email_type := "initial",
    vars := some lv, attachments := campaign.attachments }

/-- The body of the per-lead loop of `queue_campaign` (`campaign_manager.py`,
lines 260-312).  The duplicate check queries the session, and with
`autoflush=False` (and no commit before the end of the call) it sees only the
pre-call `committed` queue — rows `session.add`ed earlier in the same call
are invisible to it.  The accumulator carries the growing queue table, the
autoincrement cursor and the running count. -/
def queueCampaignStep (cid : Nat) (template : EmailTemplate)
    (campaign : EmailCampaign) (sched : Nat) (committed : List EmailQueue)
    (acc : List EmailQueue × Nat × Nat) (lead : SalesLead) :
    List EmailQueue × Nat × Nat :=
  if !strTruthy lead.email then acc
  else if hasActiveRow committed cid lead.id then acc
  else
    (acc.1 ++ [newQueueRow cid template campaign sched acc.2.1 lead],
     acc.2.1 + 1, acc.2.2 + 1)

/-- Embedding of `CampaignManager.queue_campaign` (`campaign_manager.py`,
lines 220-321).  Raises (`Except.error`) when the campaign is missing or its
template relationship resolves to nothing; returns `(db, 0)` without writes
when no leads resolve; otherwise inserts one `pending` initial row per
not-yet-queued lead with an email, then overwrites `total_recipients` with the
number inserted by this call and sets the campaign status to `scheduled`. -/
def queue_campaign (db : DB) (campaign_id : Nat)
    (leads : Option (List SalesLead)) (scheduled_at : Option Nat)
    (now : Nat) : Except String (DB × Nat) :=
  match db.findCampaign campaign_id with
  | none => .error ("Campaign " ++ toString campaign_id ++ " not found")
  | some campaign =>
    match db.templateOf campaign with
    | none => .error "Campaign has no template"
    | some template =>
      let resolved := match leads with
        | some ls => ls
        | none => get_recent_leads db 1000 campaign.target_filters none
      if resolved.isEmpty then .ok (db, 0)
      else
        let sched := scheduled_at.getD now
        let out := resolved.foldl
          (queueCampaignStep campaign_id template campaign sched db.queue)
          (db.queue, db.next_queue_id, 0)
        let db' := { db with queue := out.1, next_queue_id := out.2.1 }
        let db' := db'.updateCampaign campaign_id
          (fun c => { c with total_recipients := out.2.2, status := "scheduled" })
        .ok (db', out.2.2)

/-- The existing-follow-up query of `schedule_follow_ups`
(`campaign_manager.py`, lines 392-397): any `pending`/`sent` row whose
`parent_email_id` points at the given sent row. -/
def hasActiveFollowUp (queue : List EmailQueue) (parentId : Nat) : Bool :=
  (queue.find? (fun r =>
    r.parent_email_id == some parentId &&
      (r.status == "pending" || r.status == "sent"))).isSome

/-- The per-sent-row loop of `schedule_follow_ups` (`campaign_manager.py`,
lines 390-427).  The existing-follow-up query, like every in-call query under
`autoflush=False`, sees only the pre-call `committed` queue (each sent row's
id is distinct, so rows added earlier in the same call could never match a
later check anyway).  `fut` is the result of the follow-up-template lookup;
when it is `none` and a follow-up actually has to be rendered, Python raises
`AttributeError` (`None.render`), and a sent row whose `sent_at` is NULL makes
`sent_at + timedelta` raise `TypeError` — both modelled as `Except.error`. -/
def followUpLoop (campaign : EmailCampaign) (fut : Option EmailTemplate)
    (committed : List EmailQueue) :
    List EmailQueue → List EmailQueue → Nat → Nat →
    Except String (List EmailQueue × Nat × Nat)
  | [], queue, nid, cnt => .ok (queue, nid, cnt)
  | se :: rest, queue, nid, cnt =>
    if hasActiveFollowUp committed se.id then
      followUpLoop campaign fut committed rest queue nid cnt
    else
      match se.sent_at with
      | none => .error "TypeError: unsupported operand type(s) for +"
      | some st =>
        match fut with
        | none => .error "AttributeError: 'NoneType' object has no attribute 'render'"
        | some futT =>
          let follow_up_date := st + campaign.follow_up_delay_days * 86400
          let r := futT.render (se.vars.getD [])
          let row : EmailQueue :=
            { id := nid, campaign_id := campaign.id, lead_id := se.lead_id,
              recipient_email := se.recipient_email,
              recipient_name := se.recipient_name,
              sender_email := campaign.sender_email,
              sender_name := campaign.sender_name,
              subject := r.1, body_html := some r.2.1, body_text := r.2.2,
              scheduled_at := follow_up_date, email_type := "follow_up",
              parent_email_id := some se.id, vars := se.vars }
          followUpLoop campaign fut committed rest (queue ++ [row]) (nid + 1)
            (cnt + 1)

/-- Embedding of `CampaignManager.schedule_follow_ups` (`campaign_manager.py`,
lines 357-432).  Returns `(db, 0)` untouched when the campaign is missing,
follow-ups are disabled, or `follow_up_template_id` is falsy (NULL, or 0 under
Python integer truthiness); otherwise walks the campaign's `sent` initial rows
and inserts one follow-up row per sent row lacking an active follow-up. -/
def schedule_follow_ups (db : DB) (campaign_id : Nat) :
    Except String (DB × Nat) :=
  match db.findCampaign campaign_id with
  | none => .ok (db, 0)
  | some campaign =>
    if !campaign.follow_up_enabled then .ok (db, 0)
    else
      match campaign.follow_up_template_id with
      | none => .ok (db, 0)
      | some futid =>
        if futid == 0 then .ok (db, 0)
        else
          let sent_emails := db.queue.filter (fun r =>
            r.campaign_id == campaign_id && r.status == "sent" &&
              r.email_type == "initial")
          let fut := db.findTemplate futid
          match followUpLoop campaign fut db.queue sent_emails db.queue
            db.next_queue_id 0 with
          | .error e => .error e
          | .ok (queue, nid, cnt) =>
            .ok ({ db with queue := queue, next_queue_id := nid }, cnt)

/-! ## `src/email_service/providers.py` -/

/-- The uniform provider result dict: `success`, and optionally `message_id`,
`provider`, `error` (`providers.py`). -/
structure SendResult where
  success : Bool
  message_id : Option String := none
  provider : Option String := none
  error : Option String := none
  deriving Repr, DecidableEq

/-- The argument tuple passed to `provider.send(...)` by the queue processor
(`queue_processor.py`, lines 75-84). -/
structure SendArgs where
  to_email : String
  subject : String
  body_text : String
  body_html : Option String := none
  from_email : Option String := none
  from_name : Option String := none
  reply_to : Option String := none
  attachments : Option (List String) := none
  deriving Repr, DecidableEq

/-- The outcome of one attempt of a provider's try-block body: `Except.ok`
with the transport's message id when the message construction, connection,
login and send all succeed, `Except.error` with the exception text otherwise.
The network is outside the program, so this is the boundary parameter. -/
abbrev Attempt := Except String (Option String)

/-- Embedding of `SMTPProvider.send` (`providers.py`, lines 48-131): the whole
body sits inside `try/except Exception`, so every outcome is a plain result
dict — success with the message id, or `success=False` with the stringified
exception.  It cannot raise. -/
def SMTPProvider.send (attempt : Attempt) : SendResult :=
  match attempt with
  | .ok mid => { success := true, message_id := mid, provider := some "smtp" }
  | .error e => { success := false, error := some e, provider := some "smtp" }

/-- The `client` attribute state of an API-based provider after `__init__`:
`none` models the attribute never being assigned, `some none` models
`client = None` (the SDK import failed), `some (some ())` a usable client. -/
abbrev ClientAttr := Option (Option Unit)

/-- Embedding of `SendGridProvider.__init__` (`providers.py`, lines 137-148):
`api_key` is the argument `or` the environment variable; the `client`
attribute is assigned *only inside* `if self.api_key:` — when the key is
falsy the attribute is never created. -/
def SendGridProvider.init (api_key : Option String)
    (env : String → Option String) (sendgrid_installed : Bool) : ClientAttr :=
  let key := pyOrOpt api_key (env "SENDGRID_API_KEY")
  if strTruthy key then
    (if sendgrid_installed then some (some ()) else some none)
  else none

/-- Embedding of `SendGridProvider.send` (`providers.py`, lines 150-195):
reading `self.client` raises `AttributeError` when `__init__` never assigned
it; a `None` client returns the not-configured failure dict; otherwise the
try-block outcome is returned as a result dict. -/
def SendGridProvider.send (client : ClientAttr) (attempt : Attempt) :
    Except String SendResult :=
  match client with
  | none => .error "AttributeError: 'SendGridProvider' object has no attribute 'client'"
  | some none => .ok { success := false, error := some "SendGrid not configured",
                       provider := some "sendgrid" }
  | some (some _) =>
    match attempt with
    | .ok mid => .ok { success := true, message_id := mid,
                       provider := some "sendgrid" }
    | .error e => .ok { success := false, error := some e,
                        provider := some "sendgrid" }

/-- Embedding of `AWSProvider.__init__` (`providers.py`, lines 201-222): the
`client` attribute is assigned only when both the access key and the secret
key are truthy. -/
def AWSProvider.init (aws_access_key_id aws_secret_access_key : Option String)
    (env : String → Option String) (boto3_installed : Bool) : ClientAttr :=
  let access := pyOrOpt aws_access_key_id (env "AWS_ACCESS_KEY_ID")
  let secret := pyOrOpt aws_secret_access_key (env "AWS_SECRET_ACCESS_KEY")
  if strTruthy access && strTruthy secret then
    (if boto3_installed then some (some ()) else some none)
  else none

/-- Embedding of `AWSProvider.send` (`providers.py`, lines 224-269): same
shape as the SendGrid variant. -/
def AWSProvider.send (client : ClientAttr) (attempt : Attempt) :
    Except String SendResult :=
  match client with
  | none => .error "AttributeError: 'AWSProvider' object has no attribute 'client'"
  | some none => .ok { success := false, error := some "AWS SES not configured",
                       provider := some "aws_ses" }
  | some (some _) =>
    match attempt with
    | .ok mid => .ok { success := true, message_id := mid,
                       provider := some "aws_ses" }
    | .error e => .ok { success := false, error := some e,
                        provider := some "aws_ses" }

/-! ## `src/email_service/queue_processor.py` -/

/-- The processor's configuration (`QueueProcessor.__init__`,
`queue_processor.py`, lines 26-40).  The provider is the injected `send`
capability; it may raise (`Except.error`), which `send_email` catches. -/
structure Processor where
  provider : SendArgs → Except String SendResult
  batch_size : Nat := 10
  rate_limit : Nat := 100

/-- The processor's mutable rate-limit state (`emails_sent_this_hour`,
`hour_start`). -/
structure ProcState where
  emails_sent_this_hour : Nat := 0
  hour_start : Nat := 0
  deriving Repr, DecidableEq

/-- Embedding of `QueueProcessor.get_pending_emails` (`queue_processor.py`,
lines 42-53): `pending`, due, not soft-deleted rows, ordered by `scheduled_at`
ascending, limited by the batch size. -/
def get_pending_emails (p : Processor) (db : DB) (now : Nat) :
    List EmailQueue :=
  (sortByKey (fun a b => a.scheduled_at ≤ b.scheduled_at)
    (db.queue.filter (fun r =>
      r.status == "pending" && r.scheduled_at ≤ now && !r.is_deleted))).take
    p.batch_size

/-- Embedding of `QueueProcessor.check_rate_limit` (`queue_processor.py`,
lines 55-64): reset the fixed window when an hour has elapsed, then compare
the counter to the limit. -/
def check_rate_limit (p : Processor) (st : ProcState) (now : Nat) :
    Bool × ProcState :=
  let st := if now - st.hour_start ≥ 3600 then
      { emails_sent_this_hour := 0, hour_start := now } else st
  (st.emails_sent_this_hour < p.rate_limit, st)

/-- Embedding of `QueueProcessor.send_email` (`queue_processor.py`, lines
66-135): mark the row `sending`, call the provider, and on success mark it
`sent` (stamping `sent_at` and the provider message id), set the row's
`provider`, increment the campaign's `emails_sent`, append a `sent` tracking
event and bump the hourly counter; on a failure result or a raised exception
mark it `failed` with the error and increment the campaign's `emails_failed`.
Returns the updated store, rate state, and whether the send succeeded. -/
def send_email (p : Processor) (db : DB) (st : ProcState) (rid : Nat)
    (now : Nat) : DB × ProcState × Bool :=
  match db.queue.find? (fun r => r.id == rid) with
  | none => (db, st, false)
  | some email =>
    let db := db.updateRow rid (fun e => { e with status := "sending" })
    let campaign := db.findCampaign email.campaign_id
    let args : SendArgs :=
      { to_email := email.recipient_email, subject := email.subject,
        body_text := email.body_text, body_html := email.body_html,
        from_email := email.sender_email, from_name := email.sender_name,
        reply_to := campaign.bind (fun c => c.reply_to),
        attachments := email.attachments }
    match p.provider args with
    | .ok result =>
      if result.success then
        let db := db.updateRow rid (fun e =>
          { e.mark_sent now result.message_id with provider := result.provider })
        let db := match campaign with
          | some c => db.updateCampaign c.id
              (fun c => { c with emails_sent := c.emails_sent + 1 })
          | none => db
        let db := { db with tracking := db.tracking ++
          [{ campaign_id := email.campaign_id, email_id := email.id,
             lead_id := email.lead_id, event_type := "sent" }] }
        (db, { st with emails_sent_this_hour := st.emails_sent_this_hour + 1 },
         true)
      else
        let db := db.updateRow rid (fun e =>
          e.mark_failed (result.error.getD "Unknown error"))
        let db := match campaign with
          | some c => db.updateCampaign c.id
              (fun c => { c with emails_failed := c.emails_failed + 1 })
          | none => db
        (db, st, false)
    | .error exc =>
      let db := db.updateRow rid (fun e => e.mark_failed exc)
      let db := match campaign with
        | some c => db.updateCampaign c.id
            (fun c => { c with emails_failed := c.emails_failed + 1 })
        | none => db
      (db, st, false)

/-- The iteration of `process_batch` (`queue_processor.py`, lines 148-159):
for each claimed row, stop as soon as the rate limit is exhausted, otherwise
attempt the send (the pacing sleep has no observable effect in this model). -/
def processLoop (p : Processor) (now : Nat) :
    List EmailQueue → DB → ProcState → Nat → DB × ProcState × Nat
  | [], db, st, cnt => (db, st, cnt)
  | e :: rest, db, st, cnt =>
    let res := check_rate_limit p st now
    if !res.1 then (db, res.2, cnt)
    else
      let out := send_email p db res.2 e.id now
      processLoop p now rest out.1 out.2.1 (if out.2.2 then cnt + 1 else cnt)

/-- Embedding of `QueueProcessor.process_batch` (`queue_processor.py`, lines
137-162): claim a batch of due pending rows, then run the send loop. -/
def process_batch (p : Processor) (db : DB) (st : ProcState) (now : Nat) :
    DB × ProcState × Nat :=
  let emails := get_pending_emails p db now
  if emails.isEmpty then (db, st, 0)
  else processLoop p now emails db st 0

/-- The selection of `process_retry_queue` (`queue_processor.py`, lines
167-173): up to `batch_size` rows with status `failed`, `retry_count` below
the row's `max_retries`, not soft-deleted. -/
def retrySelection (p : Processor) (db : DB) : List EmailQueue :=
  (db.queue.filter (fun r =>
    r.status == "failed" && r.retry_count < r.max_retries &&
      !r.is_deleted)).take p.batch_size

/-- The iteration of `process_retry_queue` (`queue_processor.py`, lines
180-192): for each selected row, stop when the rate limit is exhausted,
otherwise reset its status to `pending` and re-attempt the send. -/
def retryLoop (p : Processor) (now : Nat) :
    List EmailQueue → DB → ProcState → Nat → DB × ProcState × Nat
  | [], db, st, cnt => (db, st, cnt)
  | e :: rest, db, st, cnt =>
    let res := check_rate_limit p st now
    if !res.1 then (db, res.2, cnt)
    else
      let db1 := db.updateRow e.id (fun r => { r with status := "pending" })
      let out := send_email p db1 res.2 e.id now
      retryLoop p now rest out.1 out.2.1 (if out.2.2 then cnt + 1 else cnt)

/-- Embedding of `QueueProcessor.process_retry_queue` (`queue_processor.py`,
lines 164-195). -/
def process_retry_queue (p : Processor) (db : DB) (st : ProcState)
    (now : Nat) : DB × ProcState × Nat :=
  let retry_emails := retrySelection p db
  if retry_emails.isEmpty then (db, st, 0)
  else retryLoop p now retry_emails db st 0

/-! ## Specification-side definition for claim C10

`simSubst` is written from the spec's words, not from the source: a single
simultaneous pass over the text in which each placeholder occurrence is
replaced by its value and the inserted value is never rescanned.  It is the
contrast point for the source's sequential `render`. -/

/-- Simultaneous single-pass substitution (spec-side): scan left to right;
when some mapping key's placeholder starts here, emit its value and skip past
the placeholder without rescanning the value. -/
def simSubstAux : Nat → VarMap → List Char → List Char
  | 0, _, s => s
  | _ + 1, _, [] => []
  | fuel + 1, vm, c :: rest =>
    match vm.find? (fun kv =>
        ("\x7b\x7b" ++ kv.1 ++ "\x7d\x7d").data.isPrefixOf (c :: rest)) with
    | some kv =>
      kv.2.data ++ simSubstAux fuel vm
        ((c :: rest).drop ("\x7b\x7b" ++ kv.1 ++ "\x7d\x7d").data.length)
    | none => c :: simSubstAux fuel vm rest

/-- Simultaneous substitution on a string (spec-side definition for C10). -/
def simSubst (s : String) (vm : VarMap) : String :=
  ⟨simSubstAux s.data.length vm s.data⟩

/-! ## Fixtures for the concrete scenarios -/

/-- The C6 scenario template from §8 of the spec. -/
def tmplC6 : EmailTemplate :=
  { id := 1, subject := "Hi \x7b\x7bfirst_name\x7d\x7d",
    body_text := "Hello \x7b\x7bfirst_name\x7d\x7d from \x7b\x7bcompany_name\x7d\x7d" }

/-- The C6 scenario variables. -/
def varsC6 : VarMap := [("first_name", "Ana"), ("company_name", "Acme")]

/-- A template with a placeholder matched by no variable (C6: unmatched
placeholders stay verbatim). -/
def tmplC6un : EmailTemplate :=
  { id := 2, subject := "Hi \x7b\x7bnickname\x7d\x7d", body_text := "b" }

/-- C10 fixture: the subject is a single placeholder whose substituted value
itself contains another placeholder. -/
def tmplC10 : EmailTemplate :=
  { id := 3, subject := "\x7b\x7ba\x7d\x7d", body_text := "t" }

/-- C10 mapping with `a` before `b`: the value of `a` contains `b`'s
placeholder. -/
def varsC10 : VarMap := [("a", "\x7b\x7bb\x7d\x7d"), ("b", "X")]

/-- The same mapping with the opposite iteration order. -/
def varsC10rev : VarMap := [("b", "X"), ("a", "\x7b\x7bb\x7d\x7d")]

/-- C4 fixture: a provider stub whose send always succeeds. -/
def okProvider : SendArgs → Except String SendResult :=
  fun _ => .ok { success := true, message_id := some "m", provider := some "stub" }

/-- C4 fixture: processor with `rate_limit = 2` and room for the whole batch. -/
def pC4 : Processor := { provider := okProvider, batch_size := 10, rate_limit := 2 }

/-- C4 fixture: the i-th due pending row. -/
def rowC4 (i : Nat) : EmailQueue :=
  { id := i, campaign_id := 1, lead_id := i,
    recipient_email := "lead@example.com", scheduled_at := i }

/-- C4 fixture: one campaign and five due pending rows. -/
def dbC4 : DB :=
  { campaigns := [{ id := 1 }],
    queue := [rowC4 1, rowC4 2, rowC4 3, rowC4 4, rowC4 5],
    next_queue_id := 6 }

/-- C4 fixture: a fresh rate window at the batch's clock. -/
def stC4 : ProcState := { emails_sent_this_hour := 0, hour_start := 100 }

/-! ## Claim theorems -/

/-- C1: the claim says every provider variant returns missing credentials as
a normal `success=false` result and never raises past `send`.  The code
contradicts it (and its own base-class contract): when the API key is absent,
`SendGridProvider.__init__` (and likewise `AWSProvider.__init__` without AWS
keys) never assigns `self.client`, so `send` raises `AttributeError` at the
`if not self.client:` guard instead of returning a result dict.  This theorem
evaluates the embedded code at those failing inputs; the last conjunct shows
the SMTP variant (whose whole `send` body is inside `try/except`) does return
a plain result for every attempt outcome. -/
theorem C1_missing_credentials_raise :
    SendGridProvider.send (SendGridProvider.init none (fun _ => none) true)
        (.ok (some "mid")) =
      .error "AttributeError: 'SendGridProvider' object has no attribute 'client'"
    ∧ AWSProvider.send (AWSProvider.init none none (fun _ => none) true)
        (.ok (some "mid")) =
      .error "AttributeError: 'AWSProvider' object has no attribute 'client'"
    ∧ (∀ attempt : Attempt, ∃ res : SendResult,
        (SMTPProvider.send attempt = res) ∧
          (res.success = true ∨ res.error.isSome = true)) := by
  refine ⟨rfl, rfl, fun attempt => ?_⟩
  cases attempt with
  | ok mid => exact ⟨_, rfl, Or.inl rfl⟩
  | error e => exact ⟨_, rfl, Or.inr rfl⟩

/-- C4: with `rate_limit = 2`, a batch of five due pending rows and a provider
stub that always succeeds, one `process_batch` call sends exactly the two
earliest-due rows, leaves the other three `pending`, and stops iterating the
moment the hourly counter reaches the limit. -/
theorem C4_rate_limit_halts_batch :
    (process_batch pC4 dbC4 stC4 100).2.2 = 2
    ∧ ((process_batch pC4 dbC4 stC4 100).1.queue.filter
        (fun r => r.status == "sent")).map (fun r => r.id) = [1, 2]
    ∧ ((process_batch pC4 dbC4 stC4 100).1.queue.filter
        (fun r => r.status == "pending")).map (fun r => r.id) = [3, 4, 5]
    ∧ (process_batch pC4 dbC4 stC4 100).2.1.emails_sent_this_hour = 2 := by
  refine ⟨by decide, by decide, by decide, by decide⟩

theorem replaceAux_fuel_succ (p r : List Char) (hp : p ≠ []) :
    ∀ (fuel : Nat) (s : List Char), s.length ≤ fuel →
      replaceAux (fuel + 1) p r s = replaceAux fuel p r s := by
  intro fuel
  induction fuel with
  | zero =>
    intro s hs
    have hnil : s = [] := List.eq_nil_of_length_eq_zero (Nat.le_zero.mp hs)
    subst hnil
    rfl
  | succ fuel ih =>
    intro s hs
    cases s with
    | nil => rfl
    | cons c cs =>
      have hplen : 0 < p.length := List.length_pos.mpr hp
      simp only [List.length_cons] at hs
      by_cases hpre : p.isPrefixOf (c :: cs)
      · rw [replaceAux, replaceAux, if_pos hpre, if_pos hpre]
        congr 1
        apply ih
        rw [List.length_drop]
        simp only [List.length_cons]
        omega
      · rw [replaceAux, replaceAux, if_neg hpre, if_neg hpre]
        congr 1
        apply ih
        omega

theorem replaceAux_fuel_eq (p r : List Char) (hp : p ≠ []) (s : List Char) :
    ∀ d : Nat, replaceAux (s.length + d) p r s = replaceAllL p r s := by
  intro d
  induction d with
  | zero => rfl
  | succ d ih =>
    rw [show s.length + (d + 1) = (s.length + d) + 1 from rfl,
      replaceAux_fuel_succ p r hp (s.length + d) s (by omega), ih]

theorem replaceAux_ge (p r : List Char) (hp : p ≠ []) (s : List Char)
    (fuel : Nat) (h : s.length ≤ fuel) :
    replaceAux fuel p r s = replaceAllL p r s := by
  have hx := replaceAux_fuel_eq p r hp s (fuel - s.length)
  rwa [show s.length + (fuel - s.length) = fuel by omega] at hx

/-- The left-to-right every-occurrence recurrence, matched case: when the
pattern starts here, the replacement is emitted and scanning continues past
the matched characters with the same full semantics. -/
theorem replaceAllL_pos (p r : List Char) (c : Char) (cs : List Char)
    (hp : p ≠ []) (hpre : p.isPrefixOf (c :: cs)) :
    replaceAllL p r (c :: cs) =
      r ++ replaceAllL p r ((c :: cs).drop p.length) := by
  have hplen : 0 < p.length := List.length_pos.mpr hp
  rw [replaceAllL, show (c :: cs).length = cs.length + 1 from rfl,
    replaceAux, if_pos hpre]
  congr 1
  apply replaceAux_ge p r hp
  rw [List.length_drop]
  simp only [List.length_cons]
  omega

/-- The recurrence, unmatched case: the character is copied verbatim and
scanning continues. -/
theorem replaceAllL_neg (p r : List Char) (c : Char) (cs : List Char)
    (hpre : ¬ p.isPrefixOf (c :: cs)) :
    replaceAllL p r (c :: cs) = c :: replaceAllL p r cs := by
  rw [replaceAllL, show (c :: cs).length = cs.length + 1 from rfl,
    replaceAux, if_neg hpre]
  rfl

/-- A string in which the pattern never occurs is left verbatim (stated for
the non-empty patterns the renderer uses, though the proof needs only the
recurrence). -/
theorem replaceAllL_of_not_occurs (p r : List Char) (_hp : p ≠ []) :
    ∀ s : List Char, occursL p s = false → replaceAllL p r s = s := by
  intro s
  induction s with
  | nil => intro _; rfl
  | cons c cs ih =>
    intro h
    rw [occursL] at h
    obtain ⟨h1, h2⟩ := Bool.or_eq_false_iff.mp h
    rw [replaceAllL_neg p r c cs (by simp [h1]), ih h2]

/-- For a non-empty pattern, `pyReplace` is exactly the list-level
every-occurrence replacement. -/
theorem pyReplace_eq_replaceAllL (s p r : String) (hp : p ≠ "") :
    pyReplace s p r = ⟨replaceAllL p.data r.data s.data⟩ := by
  rw [pyReplace, if_neg (fun hempty => hp ((String.isEmpty_iff p).mp hempty))]

theorem placeholder_ne_empty (k : String) :
    ("\x7b\x7b" ++ k ++ "\x7d\x7d") ≠ "" := by
  intro h
  have hd := String.ext_iff.mp h
  simp [String.data_append] at hd

theorem render_foldl_proj (v : VarMap) :
    ∀ a b c : String,
      v.foldl
        (fun acc kv =>
          let placeholder := "\x7b\x7b" ++ kv.1 ++ "\x7d\x7d"
          (pyReplace acc.1 placeholder kv.2,
           if acc.2.1 = "" then acc.2.1 else pyReplace acc.2.1 placeholder kv.2,
           pyReplace acc.2.2 placeholder kv.2)) (a, b, c) =
      (v.foldl (fun s kv =>
          pyReplace s ("\x7b\x7b" ++ kv.1 ++ "\x7d\x7d") kv.2) a,
       v.foldl (fun s kv =>
          if s = "" then s
          else pyReplace s ("\x7b\x7b" ++ kv.1 ++ "\x7d\x7d") kv.2) b,
       v.foldl (fun s kv =>
          pyReplace s ("\x7b\x7b" ++ kv.1 ++ "\x7d\x7d") kv.2) c) := by
  induction v with
  | nil => intro a b c; rfl
  | cons kv rest ih =>
    intro a b c
    rw [List.foldl_cons, List.foldl_cons, List.foldl_cons, List.foldl_cons]
    exact ih _ _ _

theorem foldl_pyReplace_unmatched (subject : String) :
    ∀ v : VarMap,
      (∀ kv ∈ v,
        occursL ("\x7b\x7b" ++ kv.1 ++ "\x7d\x7d").data subject.data = false) →
      v.foldl (fun s kv =>
        pyReplace s ("\x7b\x7b" ++ kv.1 ++ "\x7d\x7d") kv.2) subject = subject := by
  intro v
  induction v with
  | nil => intro _; rfl
  | cons kv rest ih =>
    intro h
    have hkv := h kv (List.mem_cons_self kv rest)
    have hpd : ("\x7b\x7b" ++ kv.1 ++ "\x7d\x7d").data ≠ [] :=
      fun hd => placeholder_ne_empty kv.1 (String.ext hd)
    have hstep :
        pyReplace subject ("\x7b\x7b" ++ kv.1 ++ "\x7d\x7d") kv.2 = subject := by
      rw [pyReplace_eq_replaceAllL subject _ kv.2 (placeholder_ne_empty kv.1),
        replaceAllL_of_not_occurs _ kv.2.data hpd subject.data hkv]
    rw [List.foldl_cons, hstep]
    exact ih (fun kv2 hk2 => h kv2 (List.mem_cons_of_mem _ hk2))

/-- C6: `render`'s substitution contract, general and by scenario:
the spec's scenario renders as claimed (conjunct 1); a missing HTML body
falls back to the text body before any substitution (2); the empty mapping
leaves every field verbatim (3); a placeholder with no matching key stays
verbatim in the scenario (4); for every non-empty pattern `pyReplace` is the
list-level replacement `replaceAllL` (5), which satisfies the left-to-right
every-occurrence recurrence — empty string (6), matched position: replace and
continue past the match (7), unmatched position: copy and continue (8) — and
leaves any string without an occurrence verbatim (9); `render` applies
exactly this substitution to each of subject, html body and text body, one
mapping entry at a time in order (10); and for every template and mapping
whose placeholders do not occur in the subject, the subject is returned
verbatim (11).  `render` is a total function, so it never raises. -/
theorem C6_render_contract :
    tmplC6.render varsC6 = ("Hi Ana", "Hello Ana from Acme", "Hello Ana from Acme")
    ∧ (∀ (t : EmailTemplate) (v : VarMap), t.body_html = none →
        t.render v = ({ t with body_html := some t.body_text } : EmailTemplate).render v)
    ∧ (∀ t : EmailTemplate,
        t.render [] = (t.subject, pyOrS t.body_html t.body_text, t.body_text))
    ∧ (tmplC6un.render varsC6).1 = "Hi \x7b\x7bnickname\x7d\x7d"
    ∧ (∀ (p r s : String), p ≠ "" →
        pyReplace s p r = ⟨replaceAllL p.data r.data s.data⟩)
    ∧ (∀ (p r : List Char), replaceAllL p r [] = [])
    ∧ (∀ (p r : List Char) (c : Char) (cs : List Char), p ≠ [] →
        p.isPrefixOf (c :: cs) →
        replaceAllL p r (c :: cs) =
          r ++ replaceAllL p r ((c :: cs).drop p.length))
    ∧ (∀ (p r : List Char) (c : Char) (cs : List Char),
        ¬ p.isPrefixOf (c :: cs) →
        replaceAllL p r (c :: cs) = c :: replaceAllL p r cs)
    ∧ (∀ (p r s : List Char), p ≠ [] → occursL p s = false →
        replaceAllL p r s = s)
    ∧ (∀ (t : EmailTemplate) (v : VarMap),
        t.render v =
          (v.foldl (fun s kv =>
              pyReplace s ("\x7b\x7b" ++ kv.1 ++ "\x7d\x7d") kv.2) t.subject,
           v.foldl (fun s kv =>
              if s = "" then s
              else pyReplace s ("\x7b\x7b" ++ kv.1 ++ "\x7d\x7d") kv.2)
            (pyOrS t.body_html t.body_text),
           v.foldl (fun s kv =>
              pyReplace s ("\x7b\x7b" ++ kv.1 ++ "\x7d\x7d") kv.2) t.body_text))
    ∧ (∀ (t : EmailTemplate) (v : VarMap),
        (∀ kv ∈ v,
          occursL ("\x7b\x7b" ++ kv.1 ++ "\x7d\x7d").data t.subject.data = false) →
        (t.render v).1 = t.subject) := by
  refine ⟨by decide, fun t v h => ?_, fun t => rfl, by decide,
    fun p r s hp => pyReplace_eq_replaceAllL s p r hp, fun p r => rfl,
    replaceAllL_pos, replaceAllL_neg,
    fun p r s hp ho => replaceAllL_of_not_occurs p r hp s ho,
    fun t v => render_foldl_proj v t.subject (pyOrS t.body_html t.body_text)
      t.body_text,
    fun t v h => ?_⟩
  · simp only [EmailTemplate.render, h, pyOrS, ite_self]
  · rw [show (t.render v).1 =
        v.foldl (fun s kv =>
          pyReplace s ("\x7b\x7b" ++ kv.1 ++ "\x7d\x7d") kv.2) t.subject from
      congrArg Prod.fst (render_foldl_proj v t.subject
        (pyOrS t.body_html t.body_text) t.body_text)]
    exact foldl_pyReplace_unmatched t.subject v h

/-- C6 witness: the fallback conjunct applied at the concrete scenario
template (whose `body_html` is `none`). -/
theorem C6_render_contract_witness :
    tmplC6.render varsC6 =
      ({ tmplC6 with body_html := some tmplC6.body_text } : EmailTemplate).render varsC6 :=
  C6_render_contract.2.1 tmplC6 varsC6 rfl

/-- C10: substitution is sequential, one variable at a time over the whole
current text: with `a ↦ "\x7b\x7bb\x7d\x7d"` listed before `b ↦ "X"`, the
placeholder inside `a`'s substituted value is itself replaced (subject renders
to "X"), which differs from the simultaneous single-pass result and flips when
the mapping's iteration order is reversed. -/
theorem C10_sequential_substitution :
    (tmplC10.render varsC10).1 = "X"
    ∧ simSubst tmplC10.subject varsC10 = "\x7b\x7bb\x7d\x7d"
    ∧ (tmplC10.render varsC10).1 ≠ simSubst tmplC10.subject varsC10
    ∧ (tmplC10.render varsC10rev).1 = "\x7b\x7bb\x7d\x7d" := by
  refine ⟨by decide, by decide, by decide, by decide⟩

/-! ### C8 -/

/-- C8: `queue_campaign` raises exactly when the campaign is missing or its
template relationship resolves to nothing; when both exist and no leads
resolve it returns 0 with the store untouched (no queue rows, no campaign
field changes). -/
theorem C8_expand_campaign_errors :
    (∀ (db : DB) (cid : Nat) (leads : Option (List SalesLead))
        (sched : Option Nat) (now : Nat), db.findCampaign cid = none →
        ∃ e, queue_campaign db cid leads sched now = .error e)
    ∧ (∀ (db : DB) (cid : Nat) (leads : Option (List SalesLead))
        (sched : Option Nat) (now : Nat) (c : EmailCampaign),
        db.findCampaign cid = some c → db.templateOf c = none →
        ∃ e, queue_campaign db cid leads sched now = .error e)
    ∧ (∀ (db : DB) (cid : Nat) (leads : Option (List SalesLead))
        (sched : Option Nat) (now : Nat) (c : EmailCampaign) (t : EmailTemplate),
        db.findCampaign cid = some c → db.templateOf c = some t →
        ∀ e, queue_campaign db cid leads sched now ≠ .error e)
    ∧ (∀ (db : DB) (cid : Nat) (leads : Option (List SalesLead))
        (sched : Option Nat) (now : Nat) (c : EmailCampaign) (t : EmailTemplate),
        db.findCampaign cid = some c → db.templateOf c = some t →
        (match leads with
          | some ls => ls
          | none => get_recent_leads db 1000 c.target_filters none) = [] →
        queue_campaign db cid leads sched now = .ok (db, 0)) := by
  refine ⟨fun db cid leads sched now h =>
            ⟨"Campaign " ++ toString cid ++ " not found", ?_⟩,
          fun db cid leads sched now c h1 h2 => ⟨"Campaign has no template", ?_⟩,
          fun db cid leads sched now c t h1 h2 e => ?_,
          fun db cid leads sched now c t h1 h2 h3 => ?_⟩
  · simp only [queue_campaign, h]
  · simp only [queue_campaign, h1, h2]
  · simp only [queue_campaign, h1, h2]
    split <;> simp
  · simp only [queue_campaign, h1, h2, h3, List.isEmpty_nil, if_true]

/-- C8 fixture: campaign and template both present. -/
def campC8 : EmailCampaign := { id := 1, template_id := some 1 }

/-- C8 fixture: store holding `campC8` and its template. -/
def dbC8 : DB :=
  { templates := [{ id := 1, subject := "s", body_text := "b" }],
    campaigns := [campC8] }

/-- C8 witness: with campaign and template present and an explicitly empty
lead list, `queue_campaign` returns 0 and the identical store. -/
theorem C8_expand_campaign_errors_witness :
    queue_campaign dbC8 1 (some []) none 5 = .ok (dbC8, 0) :=
  C8_expand_campaign_errors.2.2.2 dbC8 1 (some []) none 5 campC8
    { id := 1, subject := "s", body_text := "b" } rfl rfl rfl

/-! ### C9 -/

/-- C9 fixture: the initial template of the campaign. -/
def tmplInitC9 : EmailTemplate := { id := 1, subject := "s", body_text := "b" }

/-- C9 fixture: the configured follow-up template. -/
def tmplFUC9 : EmailTemplate :=
  { id := 2, template_type := "follow_up",
    subject := "fu \x7b\x7bfirst_name\x7d\x7d", body_text := "fub" }

/-- C9 fixture: campaign with follow-ups enabled, a 3-day delay, and the
follow-up template configured. -/
def campC9 : EmailCampaign :=
  { id := 1, template_id := some 1, follow_up_enabled := true,
    follow_up_delay_days := 3, follow_up_template_id := some 2,
    sender_email := some "me@x.com" }

/-- C9 fixture: the one `sent` initial row, sent at time `T`. -/
def sentRowC9 (T : Nat) : EmailQueue :=
  { id := 7, campaign_id := 1, lead_id := 4, recipient_email := "l@x.com",
    status := "sent", sent_at := some T, email_type := "initial",
    vars := some [("first_name", "Ana")] }

/-- C9 fixture: the store before follow-up expansion. -/
def dbC9 (T : Nat) : DB :=
  { templates := [tmplInitC9, tmplFUC9], campaigns := [campC9],
    queue := [sentRowC9 T], next_queue_id := 8 }

/-- The follow-up row that `schedule_follow_ups` creates in the C9 scenario. -/
def fuRowC9 (T : Nat) : EmailQueue :=
  { id := 8, campaign_id := 1, lead_id := 4, recipient_email := "l@x.com",
    sender_email := some "me@x.com", subject := "fu Ana",
    body_html := some "fub", body_text := "fub",
    scheduled_at := T + 259200, email_type := "follow_up",
    parent_email_id := some 7, vars := some [("first_name", "Ana")] }

/-- C9: on the scenario store, `schedule_follow_ups` creates exactly one new
row, scheduled `follow_up_delay_days` (3 days) after the sent row's `sent_at`,
typed `follow_up`, linked through `parent_email_id`, reusing the sent row's
variables; and it is a no-op returning 0 whenever the campaign is missing,
follow-ups are disabled, or no follow-up template is configured. -/
theorem C9_follow_up_expansion :
    (∀ T : Nat, schedule_follow_ups (dbC9 T) 1 =
        .ok ({ dbC9 T with
                queue := [sentRowC9 T, fuRowC9 T],
                next_queue_id := 9 }, 1))
    ∧ (∀ T : Nat, (fuRowC9 T).scheduled_at = T + 3 * 86400
        ∧ (fuRowC9 T).email_type = "follow_up"
        ∧ (fuRowC9 T).parent_email_id = some (sentRowC9 T).id
        ∧ (fuRowC9 T).vars = (sentRowC9 T).vars)
    ∧ (∀ (db : DB) (cid : Nat), db.findCampaign cid = none →
        schedule_follow_ups db cid = .ok (db, 0))
    ∧ (∀ (db : DB) (cid : Nat) (c : EmailCampaign), db.findCampaign cid = some c →
        c.follow_up_enabled = false → schedule_follow_ups db cid = .ok (db, 0))
    ∧ (∀ (db : DB) (cid : Nat) (c : EmailCampaign), db.findCampaign cid = some c →
        c.follow_up_template_id = none →
        schedule_follow_ups db cid = .ok (db, 0)) := by
  refine ⟨fun T => rfl, fun T => ⟨rfl, rfl, rfl, rfl⟩,
          fun db cid h => ?_, fun db cid c h1 h2 => ?_,
          fun db cid c h1 h2 => ?_⟩
  · simp only [schedule_follow_ups, h]
  · simp only [schedule_follow_ups, h1, h2, Bool.not_false, if_true]
  · simp only [schedule_follow_ups, h1, h2]
    cases c.follow_up_enabled <;> simp

/-- C9 fixture for the witness: follow-ups disabled. -/
def campC9off : EmailCampaign := { id := 2, follow_up_enabled := false }

/-- C9 fixture for the witness. -/
def dbC9off : DB := { campaigns := [campC9off] }

/-- C9 witness: the disabled-campaign no-op conjunct at a concrete store. -/
theorem C9_follow_up_expansion_witness :
    schedule_follow_ups dbC9off 2 = .ok (dbC9off, 0) :=
  C9_follow_up_expansion.2.2.2.1 dbC9off 2 campC9off rfl rfl

/-! ### C7 -/

/-- C7: the retry pass selects only `failed` rows with `retry_count` strictly
below the row's `max_retries`, bounded by the batch size — a `failed` row with
`retry_count = max_retries` is never selected — and each selected row is reset
to `pending` immediately before its re-attempt (last conjunct: one unfolding
of the retry loop when the rate limit still has room). -/
theorem C7_retry_selection :
    (∀ (p : Processor) (db : DB) (r : EmailQueue), r ∈ retrySelection p db →
        r.status = "failed" ∧ r.retry_count < r.max_retries)
    ∧ (∀ (p : Processor) (db : DB) (r : EmailQueue),
        r.status = "failed" → r.retry_count = r.max_retries →
        r ∉ retrySelection p db)
    ∧ (∀ (p : Processor) (db : DB), (retrySelection p db).length ≤ p.batch_size)
    ∧ (∀ (p : Processor) (now : Nat) (e : EmailQueue) (rest : List EmailQueue)
        (db : DB) (st : ProcState) (cnt : Nat),
        (check_rate_limit p st now).1 = true →
        retryLoop p now (e :: rest) db st cnt =
          (let db1 := db.updateRow e.id (fun r => { r with status := "pending" })
           let out := send_email p db1 (check_rate_limit p st now).2 e.id now
           retryLoop p now rest out.1 out.2.1 (if out.2.2 then cnt + 1 else cnt))) := by
  have hsel : ∀ (p : Processor) (db : DB) (r : EmailQueue),
      r ∈ retrySelection p db →
      r.status = "failed" ∧ r.retry_count < r.max_retries := by
    intro p db r hr
    have hmem := List.mem_of_mem_take hr
    have hpred := (List.mem_filter.mp hmem).2
    simp only [Bool.and_eq_true, beq_iff_eq, decide_eq_true_eq] at hpred
    exact ⟨hpred.1.1, hpred.1.2⟩
  refine ⟨hsel, fun p db r h1 h2 hmem => ?_, fun p db => ?_,
          fun p now e rest db st cnt h => ?_⟩
  · have := (hsel p db r hmem).2
    omega
  · simp only [retrySelection, List.length_take]
    exact Nat.min_le_left _ _
  · simp only [retryLoop, h, Bool.not_true, Bool.false_eq_true, if_false]

/-- C7 fixture: a `failed` row that has exhausted its retries. -/
def rowC7max : EmailQueue :=
  { id := 1, campaign_id := 1, lead_id := 1, recipient_email := "x@y.com",
    status := "failed", retry_count := 3, max_retries := 3 }

/-- C7 fixture: the store holding that row. -/
def dbC7 : DB := { queue := [rowC7max] }

/-- C7 fixture: a processor for the witness. -/
def pC7 : Processor := { provider := okProvider }

/-- C7 witness: the exhausted row is not selected by the retry pass. -/
theorem C7_retry_selection_witness : rowC7max ∉ retrySelection pC7 dbC7 :=
  C7_retry_selection.2.1 pC7 dbC7 rowC7max rfl rfl

/-! ### C2 -/

/-- An *active initial* row for a (campaign, lead) pair: status `pending` or
`sent` at email_type `initial`. -/
def activeInitial (cid lid : Nat) (r : EmailQueue) : Bool :=
  r.campaign_id == cid && r.lead_id == lid && r.email_type == "initial" &&
    (r.status == "pending" || r.status == "sent")

/-- The queue-table invariant of claim C2: at most one active initial row per
(campaign, lead) pair. -/
def dupFree (queue : List EmailQueue) : Prop :=
  ∀ cid lid, (queue.filter (activeInitial cid lid)).length ≤ 1

theorem activeInitial_eq_true {cid lid : Nat} {r : EmailQueue} :
    activeInitial cid lid r = true ↔
      r.campaign_id = cid ∧ r.lead_id = lid ∧ r.email_type = "initial" ∧
        (r.status = "pending" ∨ r.status = "sent") := by
  simp [activeInitial, and_assoc]

theorem hasActiveRow_false_elim {queue : List EmailQueue} {cid lid : Nat}
    (h : hasActiveRow queue cid lid = false) :
    ∀ r ∈ queue, activeInitial cid lid r = false := by
  intro r hr
  rw [hasActiveRow] at h
  cases hfind : queue.find? (fun r =>
      r.campaign_id == cid && r.lead_id == lid &&
        (r.status == "pending" || r.status == "sent")) with
  | some x => rw [hfind] at h; simp at h
  | none =>
    have hall := List.find?_eq_none.mp hfind r hr
    rw [Bool.eq_false_iff]
    intro hact
    apply hall
    obtain ⟨h1, h2, _, h4⟩ := activeInitial_eq_true.mp hact
    rcases h4 with h4 | h4 <;> simp [h1, h2, h4]

theorem dupFree_append_row {queue : List EmailQueue} (row : EmailQueue)
    (hq : dupFree queue)
    (hnew : ∀ cid lid, activeInitial cid lid row = true →
        queue.filter (activeInitial cid lid) = []) :
    dupFree (queue ++ [row]) := by
  intro cid lid
  rw [List.filter_append, List.length_append]
  cases hrow : activeInitial cid lid row with
  | false =>
    simp only [List.filter_cons, hrow, Bool.false_eq_true, if_false,
      List.filter_nil, List.length_nil, Nat.add_zero]
    exact hq cid lid
  | true =>
    rw [hnew cid lid hrow]
    simp [List.filter_cons, hrow]

theorem queueCampaignStep_insert (cid : Nat) (t : EmailTemplate)
    (c : EmailCampaign) (sched : Nat) (committed q : List EmailQueue)
    (nid cnt : Nat) (lead : SalesLead)
    (he : strTruthy lead.email = true)
    (hdup : hasActiveRow committed cid lead.id = false) :
    queueCampaignStep cid t c sched committed (q, nid, cnt) lead =
      (q ++ [newQueueRow cid t c sched nid lead], nid + 1, cnt + 1) := by
  simp [queueCampaignStep, he, hdup]

theorem foldl_queueCampaignStep_dupFree (committed : List EmailQueue)
    (cid : Nat) (t : EmailTemplate) (c : EmailCampaign) (sched : Nat) :
    ∀ (ls : List SalesLead) (extra : List EmailQueue) (nid cnt : Nat),
      dupFree (committed ++ extra) →
      List.Pairwise (fun a b : SalesLead => a.id ≠ b.id) ls →
      (∀ lead ∈ ls, ∀ r ∈ extra,
        ¬(r.campaign_id = cid ∧ r.lead_id = lead.id)) →
      dupFree ((ls.foldl (queueCampaignStep cid t c sched committed)
        (committed ++ extra, nid, cnt)).1) := by
  intro ls
  induction ls with
  | nil => intro extra nid cnt h1 _ _; exact h1
  | cons lead rest ih =>
    intro extra nid cnt h1 h2 h3
    obtain ⟨hhead, htail⟩ := List.pairwise_cons.mp h2
    rw [List.foldl_cons]
    by_cases he : strTruthy lead.email
    case neg =>
      rw [show queueCampaignStep cid t c sched committed
          (committed ++ extra, nid, cnt) lead =
            (committed ++ extra, nid, cnt) by simp [queueCampaignStep, he]]
      exact ih extra nid cnt h1 htail
        (fun l hl r hr => h3 l (List.mem_cons_of_mem _ hl) r hr)
    case pos =>
      by_cases hdup : hasActiveRow committed cid lead.id
      · rw [show queueCampaignStep cid t c sched committed
            (committed ++ extra, nid, cnt) lead =
              (committed ++ extra, nid, cnt) by
            simp [queueCampaignStep, he, hdup]]
        exact ih extra nid cnt h1 htail
          (fun l hl r hr => h3 l (List.mem_cons_of_mem _ hl) r hr)
      · rw [Bool.not_eq_true] at hdup
        rw [queueCampaignStep_insert cid t c sched committed _ nid cnt lead
          he hdup]
        rw [List.append_assoc]
        apply ih (extra ++ [newQueueRow cid t c sched nid lead]) (nid + 1)
          (cnt + 1)
        · rw [← List.append_assoc]
          apply dupFree_append_row _ h1
          intro c0 l0 hact
          obtain ⟨hc0, hl0, _, _⟩ := activeInitial_eq_true.mp hact
          have hc0x : cid = c0 := hc0
          have hl0x : lead.id = l0 := hl0
          subst hc0x
          subst hl0x
          rw [List.filter_append]
          rw [List.append_eq_nil]
          constructor
          · exact List.filter_eq_nil_iff.mpr (fun r hr => by
              simp [hasActiveRow_false_elim hdup r hr])
          · refine List.filter_eq_nil_iff.mpr (fun r hr hact2 => ?_)
            obtain ⟨ha, hb, _, _⟩ := activeInitial_eq_true.mp hact2
            exact h3 lead (List.mem_cons_self lead rest) r hr ⟨ha, hb⟩
        · exact htail
        · intro l hl r hr
          rcases List.mem_append.mp hr with hr | hr
          · exact h3 l (List.mem_cons_of_mem _ hl) r hr
          · rw [List.mem_singleton] at hr
            subst hr
            rintro ⟨_, hll⟩
            have hx : lead.id = l.id := hll
            exact hhead l hl hx

/-- C2, amended: the pipeline's sessions are created with `autoflush=False`
(`session.py`, line 18) and `queue_campaign` commits only at the end of the
call, so the duplicate-suppression check sees only rows committed before the
call.  Consequently the at-most-one-active-initial-row invariant per
(campaign, lead) pair is preserved by any number of `queue_campaign` calls —
in particular by two calls with the same (campaign, lead) pair — provided
each call's resolved lead list mentions each lead id at most once; a single
call handed an explicitly duplicated lead inserts one active row per
duplicate (see the counterexample). -/
theorem C2_duplicate_suppression (db : DB) (cid : Nat)
    (leads : Option (List SalesLead)) (sched : Option Nat) (now : Nat)
    (db' : DB) (n : Nat) (hinv : dupFree db.queue)
    (hdistinct : ∀ c : EmailCampaign, db.findCampaign cid = some c →
      List.Pairwise (fun a b : SalesLead => a.id ≠ b.id)
        (match leads with
          | some ls => ls
          | none => get_recent_leads db 1000 c.target_filters none))
    (h : queue_campaign db cid leads sched now = .ok (db', n)) :
    dupFree db'.queue := by
  rw [queue_campaign] at h
  cases hc : db.findCampaign cid with
  | none => rw [hc] at h; exact absurd h (by simp)
  | some c =>
    rw [hc] at h
    simp only at h
    cases ht : db.templateOf c with
    | none => rw [ht] at h; exact absurd h (by simp)
    | some t =>
      rw [ht] at h
      simp only at h
      by_cases hemp : (match leads with
        | some ls => ls
        | none => get_recent_leads db 1000 c.target_filters none).isEmpty
      · rw [if_pos hemp] at h
        obtain ⟨h1, _⟩ := Prod.mk.injEq _ _ _ _ |>.mp (Except.ok.inj h)
        rw [← h1]
        exact hinv
      · rw [if_neg hemp] at h
        obtain ⟨h1, _⟩ := Prod.mk.injEq _ _ _ _ |>.mp (Except.ok.inj h)
        rw [← h1]
        simp only [DB.updateCampaign]
        have hfold := foldl_queueCampaignStep_dupFree db.queue cid t c
          (sched.getD now) _ [] db.next_queue_id 0
          (by simpa using hinv) (hdistinct c hc)
          (fun _ _ r hr => absurd hr (List.not_mem_nil r))
        simpa using hfold

/-- C2 fixture: a lead used twice in one call. -/
def leadC2 : SalesLead :=
  { id := 10, email := some "ana@acme.com", first_name := some "Ana",
    company_name := some "Acme" }

/-- C2 fixture: campaign, template, empty queue. -/
def dbC2 : DB :=
  { templates := [{ id := 1, subject := "Hi \x7b\x7bfirst_name\x7d\x7d",
                    body_text := "b" }],
    campaigns := [{ id := 1, template_id := some 1 }] }

/-- C2 counterexample: the claim as stated is false on the code.  Under
`autoflush=False` the duplicate check sees only pre-call committed rows, so a
single `queue_campaign` call handed the same lead twice inserts two active
`pending` initial rows for the same (campaign, lead) pair. -/
theorem C2_counterexample :
    ((((queue_campaign dbC2 1 (some [leadC2, leadC2]) none 0).toOption.getD
        ({ }, 0)).1.queue).filter (activeInitial 1 10)).length = 2
    ∧ ¬ dupFree (((queue_campaign dbC2 1 (some [leadC2, leadC2]) none
        0).toOption.getD ({ }, 0)).1.queue) := by
  refine ⟨by decide, fun hdf => absurd (hdf 1 10) (by decide)⟩

/-- A queue holding at most one row is duplicate-free. -/
theorem dupFree_of_short (q : List EmailQueue) (h : q.length ≤ 1) :
    dupFree q :=
  fun _ _ => le_trans (List.length_filter_le _ _) h

/-- The store after a first committed `queue_campaign` call for `leadC2`. -/
def dbC2a : DB :=
  ((queue_campaign dbC2 1 (some [leadC2]) none 0).toOption.getD ({ }, 0)).1

/-- C2 witness: a second committed call with the same (campaign, lead) pair.
The duplicate check now sees the first call's committed row, suppresses the
insert, and the queue stays duplicate-free. -/
theorem C2_duplicate_suppression_witness :
    dupFree (((queue_campaign dbC2a 1 (some [leadC2]) none 0).toOption.getD
      ({ }, 0)).1.queue) :=
  C2_duplicate_suppression dbC2a 1 (some [leadC2]) none 0 _ _
    (dupFree_of_short _ (by decide))
    (fun c _ => by simp)
    rfl

/-! ### C5 -/

/-- C5 fixture: a provider stub that always fails with "boom". -/
def boomProvider : SendArgs → Except String SendResult :=
  fun _ => .ok { success := false, error := some "boom" }

/-- C5 fixture: a processor over the boom provider. -/
def pC5 (B R : Nat) : Processor :=
  { provider := boomProvider, batch_size := B, rate_limit := R }

/-- C5 fixture: the i-th due pending row (id and lead `i + 1`). -/
def rowC5 (i : Nat) : EmailQueue :=
  { id := i + 1, campaign_id := 1, lead_id := i + 1,
    recipient_email := "lead@example.com" }

/-- The i-th row after its failed attempt: status `failed`, `last_error`
"boom", `retry_count` bumped from 0 to 1. -/
def failedRowC5 (i : Nat) : EmailQueue :=
  { rowC5 i with
      status := "failed", last_error := some "boom", retry_count := 1 }

/-- C5 fixture: the campaign after `k` failed attempts. -/
def campC5 (k : Nat) : EmailCampaign := { id := 1, emails_failed := k }

/-- The queue of `n` rows after the first `k` have been attempted (and
failed). -/
def qstateC5 (n k : Nat) : List EmailQueue :=
  (List.range n).map (fun i => if i < k then failedRowC5 i else rowC5 i)

/-- C5 fixture: the store with `n` rows, `k` of them already failed. -/
def dbC5 (n k : Nat) : DB :=
  { campaigns := [campC5 k], queue := qstateC5 n k, next_queue_id := n + 1 }

/-- A fresh rate-limit window at clock 0. -/
def st0 : ProcState := { }

theorem find_range'_map (g : Nat → EmailQueue) (hid : ∀ i, (g i).id = i + 1) :
    ∀ (m a j : Nat), a ≤ j → j < a + m →
      ((List.range' a m).map g).find? (fun r => r.id == j + 1) = some (g j) := by
  intro m
  induction m with
  | zero => intro a j h1 h2; omega
  | succ m ih =>
    intro a j h1 h2
    rw [List.range'_succ a m 1, List.map_cons, List.find?_cons]
    by_cases haj : a = j
    · subst haj
      simp [hid]
    · have hne : ((g a).id == j + 1) = false := by
        rw [hid]
        simp only [beq_eq_false_iff_ne, Ne]
        omega
      rw [hne]
      exact ih (a + 1) j (by omega) (by omega)

theorem queue_after_sendC5 (n k : Nat) :
    ((qstateC5 n k).map (fun r =>
        if r.id == k + 1 then ({ r with status := "sending" } : EmailQueue)
        else r)).map (fun r =>
        if r.id == k + 1 then r.mark_failed "boom" else r) =
      qstateC5 n (k + 1) := by
  rw [qstateC5, qstateC5, List.map_map, List.map_map]
  apply List.map_congr_left
  intro i _
  simp only [Function.comp_apply]
  by_cases hik : i = k
  · subst hik
    simp [(by omega : ¬ i < i), (by omega : i < i + 1), rowC5,
      EmailQueue.mark_failed, failedRowC5]
  · have hne : ((i : Nat) + 1 == k + 1) = false := by
      simp only [beq_eq_false_iff_ne, Ne]
      omega
    by_cases hik2 : i < k
    · simp [hik2, (by omega : i < k + 1), failedRowC5, rowC5, hne]
    · rw [if_neg (by omega : ¬ i < k + 1)]
      simp [hik2, rowC5, hne]

theorem sortByKey_of_all_true (le : α → α → Bool) :
    ∀ l : List α, (∀ a ∈ l, ∀ b ∈ l, le a b = true) → sortByKey le l = l := by
  intro l
  induction l with
  | nil => intro _; rfl
  | cons x xs ih =>
    intro h
    rw [sortByKey, ih (fun a ha b hb =>
      h a (List.mem_cons_of_mem x ha) b (List.mem_cons_of_mem x hb))]
    cases xs with
    | nil => rfl
    | cons y ys =>
      rw [insertSorted,
        if_pos (h x (List.mem_cons_self x (y :: ys)) y
          (List.mem_cons_of_mem x (List.mem_cons_self y ys)))]

theorem qstateC5_zero (n : Nat) : qstateC5 n 0 = (List.range n).map rowC5 := by
  rw [qstateC5]
  exact List.map_congr_left (fun i _ => by simp)

theorem qstateC5_full (n : Nat) :
    qstateC5 n n = (List.range n).map failedRowC5 := by
  rw [qstateC5]
  exact List.map_congr_left (fun i hi => by
    rw [List.mem_range] at hi
    rw [if_pos hi])

theorem check_rate_limitC5 (B R : Nat) :
    check_rate_limit (pC5 B R) st0 0 = (decide (0 < R), st0) := rfl

theorem send_emailC5 (B R n k : Nat) (hk : k < n) (st : ProcState) :
    send_email (pC5 B R) (dbC5 n k) st (k + 1) 0 = (dbC5 n (k + 1), st, false) := by
  have hid : ∀ i, ((fun i => if i < k then failedRowC5 i else rowC5 i) i).id
      = i + 1 := by
    intro i
    by_cases hik : i < k <;> simp [hik, failedRowC5, rowC5]
  have hfind : (dbC5 n k).queue.find? (fun r => r.id == k + 1)
      = some (rowC5 k) := by
    show (qstateC5 n k).find? _ = _
    rw [qstateC5, List.range_eq_range' n,
      find_range'_map _ hid n 0 k (Nat.zero_le k) (by omega)]
    rw [if_neg (by omega : ¬ k < k)]
  simp only [send_email, hfind]
  simp only [pC5, boomProvider, DB.updateRow, DB.findCampaign, DB.updateCampaign,
    Option.getD, rowC5, campC5, List.find?, List.map]
  simp only [show ((1 : Nat) == 1) = true from rfl, if_true, Bool.false_eq_true,
    if_false]
  rw [show (dbC5 n k).queue = qstateC5 n k from rfl]
  have hq := queue_after_sendC5 n k
  simp only [rowC5] at hq
  rw [hq]
  simp [dbC5, campC5]

theorem processLoopC5 (B R : Nat) (hR : 0 < R) (n : Nat) :
    ∀ (m k cnt : Nat), k + m ≤ n →
      processLoop (pC5 B R) 0 ((List.range' k m).map rowC5) (dbC5 n k) st0 cnt
        = (dbC5 n (k + m), st0, cnt) := by
  intro m
  induction m with
  | zero => intro k cnt h; rfl
  | succ m ih =>
    intro k cnt h
    rw [List.range'_succ k m 1, List.map_cons]
    simp only [processLoop, check_rate_limitC5, decide_eq_true hR,
      Bool.not_true, Bool.false_eq_true, if_false]
    rw [show (rowC5 k).id = k + 1 from rfl]
    rw [send_emailC5 B R n k (by omega) st0]
    simp only [Bool.false_eq_true, if_false]
    rw [ih (k + 1) cnt (by omega)]
    have : k + 1 + m = k + (m + 1) := by omega
    rw [this]

theorem get_pending_emailsC5 (B R n : Nat) (hn : n ≤ B) :
    get_pending_emails (pC5 B R) (dbC5 n 0) 0 = (List.range n).map rowC5 := by
  rw [get_pending_emails]
  rw [show (dbC5 n 0).queue = qstateC5 n 0 from rfl, qstateC5_zero]
  have hfilt : ((List.range n).map rowC5).filter (fun r =>
      r.status == "pending" && decide (r.scheduled_at ≤ 0) && !r.is_deleted)
      = (List.range n).map rowC5 := by
    apply List.filter_eq_self.mpr
    intro r hr
    obtain ⟨i, _, rfl⟩ := List.mem_map.mp hr
    rfl
  rw [hfilt]
  have hsort : sortByKey (fun a b : EmailQueue =>
      decide (a.scheduled_at ≤ b.scheduled_at)) ((List.range n).map rowC5)
      = (List.range n).map rowC5 := by
    apply sortByKey_of_all_true
    intro a ha b hb
    obtain ⟨i, _, rfl⟩ := List.mem_map.mp ha
    obtain ⟨j, _, rfl⟩ := List.mem_map.mp hb
    rfl
  rw [hsort]
  apply List.take_of_length_le
  rw [List.length_map, List.length_range]
  exact hn

/-- C5: with a provider stub that always returns `success=False, error="boom"`
and `N` due pending rows (`N` at most the batch size, with room in the rate
window), one `process_batch` call returns 0, leaves every row `failed` with
`last_error = "boom"` and `retry_count` bumped from 0 to 1, increments the
campaign's `emails_failed` by exactly `N`, and — the embedding being a total
function — lets no exception escape. -/
theorem C5_batch_failure (n B R : Nat) (hn : n ≤ B) (hR : 0 < R) :
    process_batch (pC5 B R) (dbC5 n 0) st0 0 = (dbC5 n n, st0, 0)
    ∧ (dbC5 n n).queue = (List.range n).map failedRowC5
    ∧ (dbC5 n n).campaigns = [campC5 n]
    ∧ (campC5 n).emails_failed = (campC5 0).emails_failed + n
    ∧ ∀ r ∈ (dbC5 n n).queue,
        r.status = "failed" ∧ r.last_error = some "boom" ∧ r.retry_count = 1 := by
  refine ⟨?_, qstateC5_full n, rfl, by simp [campC5], ?_⟩
  · rw [process_batch, get_pending_emailsC5 B R n hn]
    cases n with
    | zero => rfl
    | succ m =>
      rw [if_neg (by simp [List.range_succ])]
      have := processLoopC5 B R hR (m + 1) (m + 1) 0 0 (by omega)
      rw [List.range_eq_range' (m + 1)]
      simpa using this
  · intro r hr
    rw [show (dbC5 n n).queue = qstateC5 n n from rfl, qstateC5_full] at hr
    obtain ⟨i, _, rfl⟩ := List.mem_map.mp hr
    exact ⟨rfl, rfl, rfl⟩

/-- C5 witness: the theorem applied at `N = 3`, batch size 10, rate limit
100. -/
theorem C5_batch_failure_witness :
    process_batch (pC5 10 100) (dbC5 3 0) st0 0 = (dbC5 3 3, st0, 0) :=
  (C5_batch_failure 3 10 100 (by decide) (by decide)).1

/-! ### C3 -/

/-- The core operations the counter claim ranges over. -/
inductive CoreOp where
  | queueCampaign (cid : Nat) (leads : Option (List SalesLead))
      (sched : Option Nat) (now : Nat)
  | scheduleFollowUps (cid : Nat)
  | processBatch (p : Processor) (st : ProcState) (now : Nat)
  | processRetryQueue (p : Processor) (st : ProcState) (now : Nat)

/-- Run one core operation; `none` when the operation raises. -/
def applyOp : CoreOp → DB → Option DB
  | .queueCampaign cid leads sched now, db =>
    (queue_campaign db cid leads sched now).toOption.map (fun x => x.1)
  | .scheduleFollowUps cid, db =>
    (schedule_follow_ups db cid).toOption.map (fun x => x.1)
  | .processBatch p st now, db => some (process_batch p db st now).1
  | .processRetryQueue p st now, db => some (process_retry_queue p db st now).1

/-- Whether the operation belongs to the Campaign Manager. -/
def isManagerOp : CoreOp → Bool
  | .queueCampaign _ _ _ _ => true
  | .scheduleFollowUps _ => true
  | .processBatch _ _ _ => false
  | .processRetryQueue _ _ _ => false

/-- Pointwise non-decrease of the seven send/tracking counters (everything
except `total_recipients`). -/
def CampMono (c d : EmailCampaign) : Prop :=
  d.id = c.id ∧ c.emails_sent ≤ d.emails_sent ∧
    c.emails_delivered ≤ d.emails_delivered ∧
    c.emails_opened ≤ d.emails_opened ∧ c.emails_clicked ≤ d.emails_clicked ∧
    c.emails_failed ≤ d.emails_failed ∧ c.emails_bounced ≤ d.emails_bounced ∧
    c.emails_replied ≤ d.emails_replied

/-- Pointwise equality of the seven send/tracking counters. -/
def CampEq (c d : EmailCampaign) : Prop :=
  d.id = c.id ∧ d.emails_sent = c.emails_sent ∧
    d.emails_delivered = c.emails_delivered ∧
    d.emails_opened = c.emails_opened ∧ d.emails_clicked = c.emails_clicked ∧
    d.emails_failed = c.emails_failed ∧ d.emails_bounced = c.emails_bounced ∧
    d.emails_replied = c.emails_replied

/-- The campaign table of `db'` refines that of `db` with non-decreasing
counters. -/
def countersMono (db db' : DB) : Prop :=
  List.Forall₂ CampMono db.campaigns db'.campaigns

/-- The campaign table of `db'` keeps the seven counters of `db` unchanged. -/
def countersEq (db db' : DB) : Prop :=
  List.Forall₂ CampEq db.campaigns db'.campaigns

theorem campMono_refl (c : EmailCampaign) : CampMono c c :=
  ⟨rfl, le_refl _, le_refl _, le_refl _, le_refl _, le_refl _, le_refl _,
   le_refl _⟩

theorem campMono_trans {a b c : EmailCampaign} (h1 : CampMono a b)
    (h2 : CampMono b c) : CampMono a c := by
  obtain ⟨e1, s1, d1, o1, c1, f1, b1, r1⟩ := h1
  obtain ⟨e2, s2, d2, o2, c2, f2, b2, r2⟩ := h2
  exact ⟨e2.trans e1, s1.trans s2, d1.trans d2, o1.trans o2, c1.trans c2,
    f1.trans f2, b1.trans b2, r1.trans r2⟩

theorem campEq_mono {c d : EmailCampaign} (h : CampEq c d) : CampMono c d := by
  obtain ⟨e, s, dd, o, cc, f, b, r⟩ := h
  exact ⟨e, s.ge, dd.ge, o.ge, cc.ge, f.ge, b.ge, r.ge⟩

theorem forall2_of_forall {R : α → α → Prop} (h : ∀ a, R a a) :
    ∀ l : List α, List.Forall₂ R l l := by
  intro l
  induction l with
  | nil => exact List.Forall₂.nil
  | cons x xs ih => exact List.Forall₂.cons (h x) ih

theorem forall2_map_self {R : α → α → Prop} (f : α → α) (h : ∀ a, R a (f a)) :
    ∀ l : List α, List.Forall₂ R l (l.map f) := by
  intro l
  induction l with
  | nil => exact List.Forall₂.nil
  | cons x xs ih => exact List.Forall₂.cons (h x) ih

theorem forall2_trans_of {R : α → α → Prop}
    (ht : ∀ a b c, R a b → R b c → R a c) :
    ∀ {l1 l2 l3 : List α}, List.Forall₂ R l1 l2 → List.Forall₂ R l2 l3 →
      List.Forall₂ R l1 l3 := by
  intro l1 l2 l3 h1
  induction h1 generalizing l3 with
  | nil => intro h2; cases h2; exact List.Forall₂.nil
  | cons hx _ ih =>
    intro h2
    cases h2 with
    | cons hy h2rest => exact List.Forall₂.cons (ht _ _ _ hx hy) (ih h2rest)

theorem countersMono_refl (db : DB) : countersMono db db :=
  forall2_of_forall campMono_refl _

theorem countersMono_trans {d1 d2 d3 : DB} (h1 : countersMono d1 d2)
    (h2 : countersMono d2 d3) : countersMono d1 d3 :=
  forall2_trans_of
    (fun a b c (ha : CampMono a b) (hb : CampMono b c) => campMono_trans ha hb)
    h1 h2

theorem countersEq_mono {d1 d2 : DB} (h : countersEq d1 d2) :
    countersMono d1 d2 :=
  h.imp (fun _ _ => campEq_mono)

theorem send_email_mono (p : Processor) (db : DB) (st : ProcState)
    (rid now : Nat) : countersMono db (send_email p db st rid now).1 := by
  rw [send_email]
  split
  · exact countersMono_refl db
  · dsimp only
    split
    · split
      · split
        · exact forall2_map_self _ (fun c => by
            split
            · exact ⟨rfl, Nat.le_succ _, le_refl _, le_refl _, le_refl _,
                le_refl _, le_refl _, le_refl _⟩
            · exact campMono_refl c) _
        · exact countersMono_refl db
      · split
        · exact forall2_map_self _ (fun c => by
            split
            · exact ⟨rfl, le_refl _, le_refl _, le_refl _, le_refl _,
                Nat.le_succ _, le_refl _, le_refl _⟩
            · exact campMono_refl c) _
        · exact countersMono_refl db
    · split
      · exact forall2_map_self _ (fun c => by
          split
          · exact ⟨rfl, le_refl _, le_refl _, le_refl _, le_refl _,
              Nat.le_succ _, le_refl _, le_refl _⟩
          · exact campMono_refl c) _
      · exact countersMono_refl db

theorem processLoop_mono (p : Processor) (now : Nat) :
    ∀ (rows : List EmailQueue) (db : DB) (st : ProcState) (cnt : Nat),
      countersMono db (processLoop p now rows db st cnt).1 := by
  intro rows
  induction rows with
  | nil => intro db st cnt; exact countersMono_refl db
  | cons e rest ih =>
    intro db st cnt
    rw [processLoop]
    dsimp only
    split
    · exact countersMono_refl db
    · exact countersMono_trans
        (send_email_mono p db (check_rate_limit p st now).2 e.id now) (ih _ _ _)

theorem retryLoop_mono (p : Processor) (now : Nat) :
    ∀ (rows : List EmailQueue) (db : DB) (st : ProcState) (cnt : Nat),
      countersMono db (retryLoop p now rows db st cnt).1 := by
  intro rows
  induction rows with
  | nil => intro db st cnt; exact countersMono_refl db
  | cons e rest ih =>
    intro db st cnt
    rw [retryLoop]
    dsimp only
    split
    · exact countersMono_refl db
    · exact countersMono_trans
        (show countersMono db
            (db.updateRow e.id (fun r => { r with status := "pending" }))
          from countersMono_refl db)
        (countersMono_trans
          (send_email_mono p
            (db.updateRow e.id (fun r => { r with status := "pending" }))
            (check_rate_limit p st now).2 e.id now)
          (ih _ _ _))

theorem process_batch_mono (p : Processor) (db : DB) (st : ProcState)
    (now : Nat) : countersMono db (process_batch p db st now).1 := by
  rw [process_batch]
  split
  · exact countersMono_refl db
  · exact processLoop_mono p now _ db st 0

theorem process_retry_queue_mono (p : Processor) (db : DB) (st : ProcState)
    (now : Nat) : countersMono db (process_retry_queue p db st now).1 := by
  rw [process_retry_queue]
  split
  · exact countersMono_refl db
  · exact retryLoop_mono p now _ db st 0

theorem queue_campaign_countersEq (db : DB) (cid : Nat)
    (leads : Option (List SalesLead)) (sched : Option Nat) (now : Nat)
    (db' : DB) (n : Nat)
    (h : queue_campaign db cid leads sched now = .ok (db', n)) :
    countersEq db db' := by
  rw [queue_campaign] at h
  cases hc : db.findCampaign cid with
  | none => rw [hc] at h; exact absurd h (by simp)
  | some c =>
    rw [hc] at h
    simp only at h
    cases ht : db.templateOf c with
    | none => rw [ht] at h; exact absurd h (by simp)
    | some t =>
      rw [ht] at h
      simp only at h
      split at h
      · obtain ⟨h1, _⟩ := Prod.mk.injEq _ _ _ _ |>.mp (Except.ok.inj h)
        rw [← h1]
        exact forall2_of_forall (fun c => ⟨rfl, rfl, rfl, rfl, rfl, rfl, rfl, rfl⟩) _
      · obtain ⟨h1, _⟩ := Prod.mk.injEq _ _ _ _ |>.mp (Except.ok.inj h)
        rw [← h1]
        simp only [countersEq, DB.updateCampaign]
        exact forall2_map_self _ (fun c => by
          split
          · exact ⟨rfl, rfl, rfl, rfl, rfl, rfl, rfl, rfl⟩
          · exact ⟨rfl, rfl, rfl, rfl, rfl, rfl, rfl, rfl⟩) _

theorem schedule_follow_ups_countersEq (db : DB) (cid : Nat) (db' : DB)
    (n : Nat) (h : schedule_follow_ups db cid = .ok (db', n)) :
    countersEq db db' := by
  have hrefl : ∀ dbx : DB, countersEq dbx dbx :=
    fun dbx => forall2_of_forall
      (fun c => ⟨rfl, rfl, rfl, rfl, rfl, rfl, rfl, rfl⟩) _
  rw [schedule_follow_ups] at h
  split at h
  · obtain ⟨h1, _⟩ := Prod.mk.injEq _ _ _ _ |>.mp (Except.ok.inj h)
    rw [← h1]; exact hrefl db
  · split at h
    · obtain ⟨h1, _⟩ := Prod.mk.injEq _ _ _ _ |>.mp (Except.ok.inj h)
      rw [← h1]; exact hrefl db
    · split at h
      · obtain ⟨h1, _⟩ := Prod.mk.injEq _ _ _ _ |>.mp (Except.ok.inj h)
        rw [← h1]; exact hrefl db
      · split at h
        · obtain ⟨h1, _⟩ := Prod.mk.injEq _ _ _ _ |>.mp (Except.ok.inj h)
          rw [← h1]; exact hrefl db
        · dsimp only at h
          split at h
          · exact absurd h (by simp)
          · obtain ⟨h1, _⟩ := Prod.mk.injEq _ _ _ _ |>.mp (Except.ok.inj h)
            rw [← h1]
            exact hrefl db

/-- C3, amended: across the core operations the seven send/tracking counters
(sent, delivered, opened, clicked, failed, bounced, replied) are monotonically
non-decreasing, and the Campaign Manager operations (`queue_campaign`,
`schedule_follow_ups`) leave all seven unchanged — only the Queue Processor
moves them.  `total_recipients` is excluded: `queue_campaign` overwrites it
with the number of rows inserted by that call (see the counterexample). -/
theorem C3_counters_monotone (op : CoreOp) (db db' : DB)
    (h : applyOp op db = some db') :
    countersMono db db' ∧ (isManagerOp op = true → countersEq db db') := by
  cases op with
  | queueCampaign cid leads sched now =>
    cases hq : queue_campaign db cid leads sched now with
    | error e => rw [applyOp, hq] at h; simp [Except.toOption] at h
    | ok pair =>
      rw [applyOp, hq] at h
      simp only [Except.toOption, Option.map_some] at h
      obtain rfl := Option.some.inj h
      have heq := queue_campaign_countersEq db cid leads sched now pair.1 pair.2
        (by rw [hq])
      exact ⟨countersEq_mono heq, fun _ => heq⟩
  | scheduleFollowUps cid =>
    cases hq : schedule_follow_ups db cid with
    | error e => rw [applyOp, hq] at h; simp [Except.toOption] at h
    | ok pair =>
      rw [applyOp, hq] at h
      simp only [Except.toOption, Option.map_some] at h
      obtain rfl := Option.some.inj h
      have heq := schedule_follow_ups_countersEq db cid pair.1 pair.2 (by rw [hq])
      exact ⟨countersEq_mono heq, fun _ => heq⟩
  | processBatch p st now =>
    rw [applyOp] at h
    obtain rfl := Option.some.inj h
    exact ⟨process_batch_mono p db st now, fun hm => by simp [isManagerOp] at hm⟩
  | processRetryQueue p st now =>
    rw [applyOp] at h
    obtain rfl := Option.some.inj h
    exact ⟨process_retry_queue_mono p db st now,
      fun hm => by simp [isManagerOp] at hm⟩

/-- C3 fixture: a lead queued twice across two calls. -/
def leadC3 : SalesLead := { id := 20, email := some "bob@x.com" }

/-- C3 fixture: campaign with template, empty queue, all counters 0. -/
def dbC3 : DB :=
  { templates := [{ id := 1, subject := "s", body_text := "b" }],
    campaigns := [{ id := 1, template_id := some 1 }] }

/-- The store after the first `queue_campaign` call. -/
def dbC3a : DB :=
  ((queue_campaign dbC3 1 (some [leadC3]) none 0).toOption.getD ({ }, 0)).1

/-- The store after the second, duplicate-suppressed call. -/
def dbC3b : DB :=
  ((queue_campaign dbC3a 1 (some [leadC3]) none 0).toOption.getD ({ }, 0)).1

/-- C3 counterexample: the claim as stated is false on the code.  The
Campaign Manager's `queue_campaign` *does* change a campaign counter:
it overwrites `total_recipients` with the count inserted by that call, so a
first call sets it to 1 and a duplicate-suppressed second call resets it to
0 — a strict decrease across a core operation. -/
theorem C3_counterexample :
    (dbC3a.findCampaign 1).map (fun c => c.total_recipients) = some 1
    ∧ (dbC3b.findCampaign 1).map (fun c => c.total_recipients) = some 0 := by
  refine ⟨by decide, by decide⟩

/-- C3 witness: the amended theorem applied to the concrete first call. -/
theorem C3_counters_monotone_witness : countersMono dbC3 dbC3a :=
  (C3_counters_monotone (CoreOp.queueCampaign 1 (some [leadC3]) none 0)
    dbC3 dbC3a (by decide)).1

end SalesPlan
